import Mathlib

/-!
Shallow embedding of the FilamentController front-end scripts.

The repository holds two browser components built on the same pattern:
a status/control panel (src/unnamed/part_000) and a setup panel
(src/static/scripts/setup.js).  Each component is a record of reactive
state (`data`), on-demand methods, and a `mounted` hook that issues
one-time and periodic HTTP calls.  Every HTTP handler is a pure update
of the component state given the outcome of the call, so we embed each
handler as a function `HttpResult α → State → State` and the `mounted`
hook as the list of requests it installs.  Numeric values travel as
rationals; JavaScript strings are Lean strings.
-/

/-- A GET request as issued by axios: the URL and the optional timeout
in milliseconds passed in the config object. -/
structure GetRequest where
  url : String
  timeout : Option Nat
deriving DecidableEq, Repr

/-- Outcome of an HTTP call as seen by the `then`/`catch` handlers:
`success` carries the parsed response data; `failure` carries
`error.response.data` when the server responded with an error status,
or `none` when `error.response` is `undefined` (no response at all). -/
inductive HttpResult (α : Type) where
  | success (data : α)
  | failure (response : Option String)
deriving DecidableEq, Repr

/-- One step performed by a component's `mounted` hook: either a single
immediate GET, or a `setInterval` installation firing a GET every
`periodMs` milliseconds. -/
inductive MountStep where
  | oneTimeGet (req : GetRequest)
  | installInterval (periodMs : Nat) (req : GetRequest)
deriving DecidableEq, Repr

/-- Floor of the base-10 logarithm of a positive rational: the unique
`e` with `10 ^ e ≤ x < 10 ^ (e + 1)`.  For `x ≥ 1` this is the number
of decimal digits of `⌊x⌋` minus one; for `0 < x < 1` it is computed
from the digit count of `⌊x⁻¹⌋`, with the exact-power case separated. -/
def floorLog10 (x : ℚ) : Int :=
  if 1 ≤ x then (Nat.log 10 ⌊x⌋.toNat : Int)
  else
    let k := Nat.log 10 ⌊x⁻¹⌋.toNat
    if (10 : ℚ) ^ k = x⁻¹ then -(k : Int) else -(k : Int) - 1

/-- JavaScript `Number.prototype.toPrecision(2)`, read back as the
rational the resulting decimal string denotes: round to two significant
decimal digits, choosing the larger candidate on ties (ECMA-262 step
"pick the larger n", which for the nonnegative values this code feeds
it is round-half-up).  Zero renders as "0.0", i.e. zero. -/
def toPrecision2 (x : ℚ) : ℚ :=
  if x = 0 then 0
  else if 0 < x then
    (round (x * (10 : ℚ) ^ (1 - floorLog10 x)) : ℚ) * (10 : ℚ) ^ (floorLog10 x - 1)
  else
    -((round (-x * (10 : ℚ) ^ (1 - floorLog10 (-x))) : ℚ) * (10 : ℚ) ^ (floorLog10 (-x) - 1))

namespace StatusPanel

/-- Fields of the `/status` response body that the status panel's poll
handler reads. -/
structure StatusResponse where
  computer_control : Bool
  filament_status_message : String
  active_users : Int
deriving DecidableEq, Repr

/-- Reactive state of the status/control component: the three fields
returned by its `data()` function. -/
structure State where
  computer_control : Bool
  active_users : Int
  filament_status_message : String
deriving DecidableEq, Repr

/-- Initial state returned by the component's `data()` function. -/
def data : State :=
  { computer_control := true, active_users := 0, filament_status_message := "" }

/-- Request issued by the `filamentOn` method. -/
def filamentOnRequest : GetRequest := { url := "/filament-on", timeout := none }

/-- Request issued by the `filamentOff` method. -/
def filamentOffRequest : GetRequest := { url := "/filament-off", timeout := none }

/-- Effect on the component state of the `then`/`catch` handlers of the
`filamentOn` method, given the outcome of its GET. -/
def filamentOn (r : HttpResult String) (s : State) : State :=
  match r with
  | .success d => { s with filament_status_message := d }
  | .failure resp =>
    match resp with
    | none => { s with filament_status_message := "Failed to communicate with server." }
    | some d => { s with filament_status_message := d }

/-- Effect on the component state of the `then`/`catch` handlers of the
`filamentOff` method, given the outcome of its GET. -/
def filamentOff (r : HttpResult String) (s : State) : State :=
  match r with
  | .success d => { s with filament_status_message := d }
  | .failure resp =>
    match resp with
    | none => { s with filament_status_message := "Failed to communicate with server." }
    | some d => { s with filament_status_message := d }

/-- The on-demand methods of the component, in source order, paired
with the request each issues. -/
def methods : List (String × GetRequest) :=
  [("filamentOn", filamentOnRequest), ("filamentOff", filamentOffRequest)]

/-- Request issued by each tick of the interval installed in `mounted`. -/
def statusRequest : GetRequest := { url := "/status", timeout := some 450 }

/-- Period, in milliseconds, of the `setInterval` installed in `mounted`. -/
def pollIntervalMs : Nat := 500

/-- Effect on the component state of one tick of the interval handler
installed in `mounted`, given the outcome of its GET of `/status`. -/
def pollTick (r : HttpResult StatusResponse) (s : State) : State :=
  match r with
  | .success d =>
    { s with
      computer_control := d.computer_control,
      filament_status_message := d.filament_status_message,
      active_users := d.active_users }
  | .failure resp =>
    match resp with
    | none => { s with filament_status_message := "Failed to communicate with server." }
    | some d => { s with filament_status_message := d }

/-- The `mounted` hook of the status panel: it installs a single
interval and performs no one-time request. -/
def mounted : List MountStep := [.installInterval pollIntervalMs statusRequest]

end StatusPanel

namespace SetupPanel

/-- Fields of the `/status` response body that the setup panel's
handlers read. -/
structure StatusResponse where
  max_dac_value : ℚ
  dac_bits : Nat
deriving DecidableEq, Repr

/-- Reactive state of the setup component: the four fields returned by
its `data()` function. -/
structure State where
  max_virtual_knob_value : ℚ
  current_max_dac_value : ℚ
  error_message : String
  warning_message : String
deriving DecidableEq, Repr

/-- Initial state returned by the component's `data()` function. -/
def data : State :=
  { max_virtual_knob_value := 0, current_max_dac_value := 0,
    error_message := "", warning_message := "" }

/-- Request of the one-time configuration GET performed in `mounted`. -/
def loadRequest : GetRequest := { url := "/status", timeout := some 1000 }

/-- Effect on the component state of the handlers of the one-time
configuration GET in `mounted`.  On success the knob value is derived
from `max_dac_value` and `dac_bits` by the source expression
`((max_dac_value / (Math.pow(2, dac_bits) - 1)) * 10.0).toPrecision(2)`. -/
def loadStatus (r : HttpResult StatusResponse) (s : State) : State :=
  match r with
  | .success d =>
    { s with
      max_virtual_knob_value := toPrecision2 (d.max_dac_value / ((2 : ℚ) ^ d.dac_bits - 1) * 10),
      current_max_dac_value := d.max_dac_value }
  | .failure resp =>
    match resp with
    | none => { s with error_message := "Failed to communicate with server." }
    | some d => { s with error_message := d }

/-- The fixed concurrent-change warning text. -/
def warningText : String :=
  "Warning: Someone else on the system changed the max virtual knob value setting while you were on this page."

/-- Request issued by each tick of the interval installed in `mounted`. -/
def pollRequest : GetRequest := { url := "/status", timeout := some 450 }

/-- Period, in milliseconds, of the `setInterval` installed in `mounted`. -/
def pollIntervalMs : Nat := 500

/-- Effect on the component state of one tick of the interval handler
installed in `mounted`, given the outcome of its GET of `/status`. -/
def pollStatus (r : HttpResult StatusResponse) (s : State) : State :=
  match r with
  | .success d =>
    if s.current_max_dac_value ≠ d.max_dac_value then
      { s with warning_message := warningText }
    else
      s
  | .failure resp =>
    match resp with
    | none => { s with error_message := "Failed to communicate with server." }
    | some d => { s with error_message := d }

/-- The `mounted` hook of the setup panel: one immediate configuration
GET, then a single interval installation. -/
def mounted : List MountStep := [.oneTimeGet loadRequest, .installInterval pollIntervalMs pollRequest]

/-- A POST request as issued by axios in `submitNewSettings`: URL,
multipart form fields (name paired with the numeric value appended),
and the Content-Type header. -/
structure PostRequest where
  url : String
  formData : List (String × ℚ)
  contentType : String
deriving DecidableEq, Repr

/-- JavaScript `parseFloat` applied to a value already holding a finite
number: the number is first converted to its decimal string, which
parses back to the same number, so on numeric input it is the identity. -/
def parseFloat (x : ℚ) : ℚ := x

/-- The POST built and issued by `submitNewSettings`: one form field,
named `max_virtual_knob_value`, carrying the parsed knob value. -/
def submitRequest (s : State) : PostRequest :=
  { url := "/setup",
    formData := [("max_virtual_knob_value", parseFloat s.max_virtual_knob_value)],
    contentType := "multipart/form-data" }

/-- Effect of the `then`/`catch` handlers of `submitNewSettings`: the
first component is the new state, the second the navigation target
assigned to `window.location.href`, if any. -/
def submitNewSettings (r : HttpResult String) (s : State) : State × Option String :=
  match r with
  | .success _ => (s, some "/")
  | .failure resp =>
    match resp with
    | none => ({ s with error_message := "Failed to communicate with server." }, none)
    | some d => ({ s with error_message := d }, none)

/-- One completed HTTP interaction of the setup component, with its
outcome: the one-time load, a poll tick, or a settings submission. -/
inductive Event where
  | load (r : HttpResult StatusResponse)
  | poll (r : HttpResult StatusResponse)
  | submit (r : HttpResult String)
deriving DecidableEq, Repr

/-- State transition performed by one event's handlers. -/
def step (e : Event) (s : State) : State :=
  match e with
  | .load r => loadStatus r s
  | .poll r => pollStatus r s
  | .submit r => (submitNewSettings r s).1

/-- State after a sequence of completed interactions. -/
def run (es : List Event) (s : State) : State :=
  es.foldl (fun t e => step e t) s

/-- Whether an event is the one-time configuration load. -/
def Event.isLoad : Event → Bool
  | .load _ => true
  | _ => false

end SetupPanel

/-! ### Helper lemmas -/

/-- Evaluation of `floorLog10` at 10. -/
theorem floorLog10_ten : floorLog10 10 = 1 := by
  unfold floorLog10
  rw [if_pos (by norm_num : (1:ℚ) ≤ 10)]
  have h1 : ⌊(10:ℚ)⌋ = 10 := Int.floor_ofNat 10
  rw [h1]
  have h2 : ((10:ℤ)).toNat = 10 := rfl
  rw [h2]
  have h3 : Nat.log 10 10 = 1 := Nat.log_eq_of_pow_le_of_lt_pow (by norm_num) (by norm_num)
  rw [h3]
  norm_num

/-- Evaluation of `toPrecision2` at 10: ten has two significant digits
already, so it is returned unchanged. -/
theorem toPrecision2_ten : toPrecision2 10 = 10 := by
  unfold toPrecision2
  rw [if_neg (by norm_num : ¬ (10:ℚ) = 0), if_pos (by norm_num : (0:ℚ) < 10), floorLog10_ten]
  have hr : round ((10:ℚ) * 10 ^ ((1:ℤ) - 1)) = 10 := by
    norm_num [round_eq]
  rw [hr]
  norm_num

/-- No event's handlers write anything into `warning_message` other
than leaving it alone or storing the fixed warning text. -/
theorem step_warning_cases (e : SetupPanel.Event) (t : SetupPanel.State) :
    (SetupPanel.step e t).warning_message = t.warning_message
    ∨ (SetupPanel.step e t).warning_message = SetupPanel.warningText := by
  cases e with
  | load r =>
    cases r with
    | success d => exact Or.inl rfl
    | failure resp => cases resp <;> exact Or.inl rfl
  | poll r =>
    cases r with
    | success d =>
      simp only [SetupPanel.step, SetupPanel.pollStatus]
      split
      · exact Or.inr rfl
      · exact Or.inl rfl
    | failure resp => cases resp <;> exact Or.inl rfl
  | submit r =>
    cases r with
    | success d => exact Or.inl rfl
    | failure resp => cases resp <;> exact Or.inl rfl

/-- Every event other than the one-time load leaves
`current_max_dac_value` unchanged. -/
theorem step_preserves_current (e : SetupPanel.Event) (t : SetupPanel.State)
    (h : e.isLoad = false) :
    (SetupPanel.step e t).current_max_dac_value = t.current_max_dac_value := by
  cases e with
  | load r => simp [SetupPanel.Event.isLoad] at h
  | poll r =>
    cases r with
    | success d =>
      simp only [SetupPanel.step, SetupPanel.pollStatus]
      split <;> rfl
    | failure resp => cases resp <;> rfl
  | submit r =>
    cases r with
    | success d => rfl
    | failure resp => cases resp <;> rfl

/-! ### Claims -/

/-- C1: the status panel's `mounted` hook installs one periodic
operation, a GET of `/status` every 500 ms with a 450 ms timeout, and
on every successful response it sets the three display fields
`computer_control`, `filament_status_message` and `active_users` to the
corresponding fields of the response body. -/
theorem status_poll_updates_three_fields :
    StatusPanel.mounted =
      [MountStep.installInterval 500 { url := "/status", timeout := some 450 }]
    ∧ ∀ (d : StatusPanel.StatusResponse) (s : StatusPanel.State),
        (StatusPanel.pollTick (.success d) s).computer_control = d.computer_control
        ∧ (StatusPanel.pollTick (.success d) s).filament_status_message = d.filament_status_message
        ∧ (StatusPanel.pollTick (.success d) s).active_users = d.active_users :=
  ⟨rfl, fun _ _ => ⟨rfl, rfl, rfl⟩⟩

/-- C2: the setup panel's `mounted` hook installs a periodic GET of
`/status` every 500 ms; on a successful poll, if the response's
`max_dac_value` differs from the stored `current_max_dac_value` then
`warning_message` is set to the fixed warning text, and if it is equal
the state is left entirely unchanged. -/
theorem setup_poll_detects_external_change
    (d : SetupPanel.StatusResponse) (s : SetupPanel.State) :
    SetupPanel.mounted =
      [MountStep.oneTimeGet { url := "/status", timeout := some 1000 },
       MountStep.installInterval 500 { url := "/status", timeout := some 450 }]
    ∧ (s.current_max_dac_value ≠ d.max_dac_value →
        SetupPanel.pollStatus (.success d) s
          = { s with warning_message := SetupPanel.warningText })
    ∧ (s.current_max_dac_value = d.max_dac_value →
        SetupPanel.pollStatus (.success d) s = s) := by
  refine ⟨rfl, fun h => ?_, fun h => ?_⟩
  · simp only [SetupPanel.pollStatus, if_pos h]
  · simp only [SetupPanel.pollStatus]
    rw [if_neg (by simp [h])]

/-- Witness for C2: from the initial state (stored value 0), a poll
reporting 2 raises the warning, and a poll reporting 0 changes nothing. -/
theorem setup_poll_detects_external_change_witness :
    SetupPanel.pollStatus (.success { max_dac_value := 2, dac_bits := 3 }) SetupPanel.data
      = { SetupPanel.data with warning_message := SetupPanel.warningText }
    ∧ SetupPanel.pollStatus (.success { max_dac_value := 0, dac_bits := 3 }) SetupPanel.data
      = SetupPanel.data :=
  ⟨(setup_poll_detects_external_change { max_dac_value := 2, dac_bits := 3 } SetupPanel.data).2.1
      (by decide),
   (setup_poll_detects_external_change { max_dac_value := 0, dac_bits := 3 } SetupPanel.data).2.2
      (by decide)⟩

/-- C3: every failing HTTP operation of both components writes its
component's bound message field (and nothing else): the literal
"Failed to communicate with server." when the error carries no server
response, otherwise the server response's body. -/
theorem failure_handling_uniform (resp : Option String)
    (s : StatusPanel.State) (t : SetupPanel.State) :
    let msg := match resp with
      | none => "Failed to communicate with server."
      | some d => d
    StatusPanel.pollTick (.failure resp) s = { s with filament_status_message := msg }
    ∧ StatusPanel.filamentOn (.failure resp) s = { s with filament_status_message := msg }
    ∧ StatusPanel.filamentOff (.failure resp) s = { s with filament_status_message := msg }
    ∧ SetupPanel.loadStatus (.failure resp) t = { t with error_message := msg }
    ∧ SetupPanel.pollStatus (.failure resp) t = { t with error_message := msg }
    ∧ SetupPanel.submitNewSettings (.failure resp) t = ({ t with error_message := msg }, none) := by
  cases resp <;> exact ⟨rfl, rfl, rfl, rfl, rfl, rfl⟩

/-- Counterexample to C4: with a successful configuration response
carrying `max_dac_value = 1` and `dac_bits = 1`, the setup panel stores
10 into `max_virtual_knob_value`, not the server's value 1. -/
theorem setup_load_transforms_knob_value :
    (SetupPanel.loadStatus (.success { max_dac_value := 1, dac_bits := 1 })
        SetupPanel.data).max_virtual_knob_value ≠ 1 := by
  show toPrecision2 ((1 : ℚ) / ((2:ℚ) ^ (1:ℕ) - 1) * 10) ≠ 1
  have harg : (1 : ℚ) / ((2:ℚ) ^ (1:ℕ) - 1) * 10 = 10 := by norm_num
  rw [harg, toPrecision2_ten]
  norm_num

/-- C4 (amended): every successful response is copied verbatim into the
fields it updates, except the setup panel's one-time configuration GET,
whose `max_virtual_knob_value` is derived from the response's
`max_dac_value` and `dac_bits` (scaled by `10 / (2 ^ dac_bits - 1)` and
rounded to two significant digits); `current_max_dac_value` does
receive the verbatim `max_dac_value`. -/
theorem copy_semantics_amended
    (d1 : StatusPanel.StatusResponse) (body : String) (d : SetupPanel.StatusResponse)
    (s : StatusPanel.State) (t : SetupPanel.State) :
    StatusPanel.pollTick (.success d1) s
      = { computer_control := d1.computer_control, active_users := d1.active_users,
          filament_status_message := d1.filament_status_message }
    ∧ StatusPanel.filamentOn (.success body) s = { s with filament_status_message := body }
    ∧ StatusPanel.filamentOff (.success body) s = { s with filament_status_message := body }
    ∧ (SetupPanel.loadStatus (.success d) t).current_max_dac_value = d.max_dac_value
    ∧ (SetupPanel.loadStatus (.success d) t).max_virtual_knob_value
        = toPrecision2 (d.max_dac_value / ((2 : ℚ) ^ d.dac_bits - 1) * 10) :=
  ⟨rfl, rfl, rfl, rfl, rfl⟩

/-- C5: polling is last-write-wins with no reconciliation: a setup-panel
poll never changes `max_virtual_knob_value` or `current_max_dac_value`
(on success or failure), and a successful status-panel poll replaces the
whole state with the response's values, independent of the prior state. -/
theorem polling_last_write_wins
    (d : SetupPanel.StatusResponse) (t : SetupPanel.State)
    (d1 : StatusPanel.StatusResponse) (s : StatusPanel.State) (resp : Option String) :
    (SetupPanel.pollStatus (.success d) t).max_virtual_knob_value = t.max_virtual_knob_value
    ∧ (SetupPanel.pollStatus (.success d) t).current_max_dac_value = t.current_max_dac_value
    ∧ (SetupPanel.pollStatus (.failure resp) t).max_virtual_knob_value = t.max_virtual_knob_value
    ∧ (SetupPanel.pollStatus (.failure resp) t).current_max_dac_value = t.current_max_dac_value
    ∧ StatusPanel.pollTick (.success d1) s
        = { computer_control := d1.computer_control, active_users := d1.active_users,
            filament_status_message := d1.filament_status_message } := by
  refine ⟨?_, ?_, ?_, ?_, rfl⟩
  · simp only [SetupPanel.pollStatus]
    split <;> rfl
  · simp only [SetupPanel.pollStatus]
    split <;> rfl
  · cases resp <;> rfl
  · cases resp <;> rfl

/-- C6: the status panel's methods are exactly `filamentOn` and
`filamentOff`, issuing GETs of `/filament-on` and `/filament-off`; on
success each sets `filament_status_message` to the response body and
changes no other field. -/
theorem filament_actions (body : String) (s : StatusPanel.State) :
    StatusPanel.methods =
      [("filamentOn", { url := "/filament-on", timeout := none }),
       ("filamentOff", { url := "/filament-off", timeout := none })]
    ∧ StatusPanel.filamentOn (.success body) s = { s with filament_status_message := body }
    ∧ StatusPanel.filamentOff (.success body) s = { s with filament_status_message := body } :=
  ⟨rfl, rfl, rfl⟩

/-- C7: the setup panel's `mounted` hook performs exactly one one-time
GET of `/status`, before installing the periodic poll; on success it
sets `max_virtual_knob_value` to a value derived from the response's
`max_dac_value` and `dac_bits`, and `current_max_dac_value` to the
response's `max_dac_value`. -/
theorem setup_initial_load (d : SetupPanel.StatusResponse) (t : SetupPanel.State) :
    SetupPanel.mounted =
      [MountStep.oneTimeGet { url := "/status", timeout := some 1000 },
       MountStep.installInterval 500 SetupPanel.pollRequest]
    ∧ SetupPanel.loadStatus (.success d) t
        = { t with
            max_virtual_knob_value :=
              toPrecision2 (d.max_dac_value / ((2 : ℚ) ^ d.dac_bits - 1) * 10),
            current_max_dac_value := d.max_dac_value } :=
  ⟨rfl, rfl⟩

/-- C8: `submitNewSettings` issues one POST to `/setup` whose form data
carries the parsed knob value under the field name
`max_virtual_knob_value`; on success it modifies no local field, and on
failure it sets `error_message` by the generic error rule. -/
theorem submit_new_settings_spec (t : SetupPanel.State) (body : String) (resp : Option String) :
    SetupPanel.submitRequest t
      = { url := "/setup",
          formData := [("max_virtual_knob_value", SetupPanel.parseFloat t.max_virtual_knob_value)],
          contentType := "multipart/form-data" }
    ∧ (SetupPanel.submitNewSettings (.success body) t).1 = t
    ∧ (SetupPanel.submitNewSettings (.failure resp) t).1
        = { t with error_message := match resp with
              | none => "Failed to communicate with server."
              | some d => d } := by
  refine ⟨rfl, rfl, ?_⟩
  cases resp <;> rfl

/-- C9: starting from any state whose `warning_message` is empty or the
fixed warning text (so in particular from the initial state), after any
sequence of completed operations `warning_message` is still empty or the
warning text, and once it holds the warning text no later operation ever
changes it: the warning latches. -/
theorem warning_message_latches (es : List SetupPanel.Event) (t : SetupPanel.State)
    (h : t.warning_message = "" ∨ t.warning_message = SetupPanel.warningText) :
    ((SetupPanel.run es t).warning_message = ""
      ∨ (SetupPanel.run es t).warning_message = SetupPanel.warningText)
    ∧ (t.warning_message = SetupPanel.warningText →
        (SetupPanel.run es t).warning_message = SetupPanel.warningText) := by
  induction es generalizing t with
  | nil => exact ⟨h, fun hw => hw⟩
  | cons e es ih =>
    have hs := step_warning_cases e t
    have hrun : SetupPanel.run (e :: es) t = SetupPanel.run es (SetupPanel.step e t) := rfl
    rw [hrun]
    have h' : (SetupPanel.step e t).warning_message = ""
        ∨ (SetupPanel.step e t).warning_message = SetupPanel.warningText := by
      rcases hs with h1 | h1
      · rw [h1]; exact h
      · exact Or.inr h1
    refine ⟨(ih _ h').1, fun hw => ?_⟩
    have h2 : (SetupPanel.step e t).warning_message = SetupPanel.warningText := by
      rcases hs with h1 | h1
      · rw [h1]; exact hw
      · exact h1
    exact (ih _ h').2 h2

/-- Witness for C9: the invariant instantiated at the initial state and
a concrete two-event run (a poll that raises the warning, then a failed
submission). -/
theorem warning_message_latches_witness :
    (SetupPanel.run
        [SetupPanel.Event.poll (.success { max_dac_value := 2, dac_bits := 3 }),
         SetupPanel.Event.submit (.failure none)]
        SetupPanel.data).warning_message = ""
    ∨ (SetupPanel.run
        [SetupPanel.Event.poll (.success { max_dac_value := 2, dac_bits := 3 }),
         SetupPanel.Event.submit (.failure none)]
        SetupPanel.data).warning_message = SetupPanel.warningText :=
  (warning_message_latches
    [SetupPanel.Event.poll (.success { max_dac_value := 2, dac_bits := 3 }),
     SetupPanel.Event.submit (.failure none)]
    SetupPanel.data (Or.inl rfl)).1

/-- C10: `current_max_dac_value` is written by no operation other than
the one-time load, so after a successful load reporting `d` followed by
any load-free sequence of operations it still holds `d.max_dac_value`,
and every poll's change detection compares the polled value against
that load-time value. -/
theorem poll_compares_against_load_time_value
    (es : List SetupPanel.Event) (d : SetupPanel.StatusResponse) (t : SetupPanel.State)
    (h : ∀ e ∈ es, SetupPanel.Event.isLoad e = false) :
    (∀ (e : SetupPanel.Event) (u : SetupPanel.State), SetupPanel.Event.isLoad e = false →
        (SetupPanel.step e u).current_max_dac_value = u.current_max_dac_value)
    ∧ (SetupPanel.run es (SetupPanel.loadStatus (.success d) t)).current_max_dac_value
        = d.max_dac_value
    ∧ ∀ d' : SetupPanel.StatusResponse,
        SetupPanel.pollStatus (.success d')
            (SetupPanel.run es (SetupPanel.loadStatus (.success d) t))
          = if d.max_dac_value ≠ d'.max_dac_value
            then { SetupPanel.run es (SetupPanel.loadStatus (.success d) t) with
                   warning_message := SetupPanel.warningText }
            else SetupPanel.run es (SetupPanel.loadStatus (.success d) t) := by
  have hcur : ∀ (l : List SetupPanel.Event) (u : SetupPanel.State),
      (∀ e ∈ l, SetupPanel.Event.isLoad e = false) →
      (SetupPanel.run l u).current_max_dac_value = u.current_max_dac_value := by
    intro l
    induction l with
    | nil => intro u _; rfl
    | cons e l ih =>
      intro u hl
      have h1 : SetupPanel.Event.isLoad e = false := hl e (List.mem_cons_self e l)
      have h2 : ∀ e' ∈ l, SetupPanel.Event.isLoad e' = false :=
        fun e' he' => hl e' (List.mem_cons_of_mem e he')
      have hr : SetupPanel.run (e :: l) u = SetupPanel.run l (SetupPanel.step e u) := rfl
      rw [hr, ih (SetupPanel.step e u) h2, step_preserves_current e u h1]
  have hmain : (SetupPanel.run es (SetupPanel.loadStatus (.success d) t)).current_max_dac_value
      = d.max_dac_value := by
    rw [hcur es _ h]
    rfl
  refine ⟨fun e u he => step_preserves_current e u he, hmain, fun d' => ?_⟩
  simp only [SetupPanel.pollStatus, hmain]

/-- Witness for C10: a successful load reporting 5 followed by a poll
and a failed submission, neither of which is a load, leaves the stored
`current_max_dac_value` at 5. -/
theorem poll_compares_against_load_time_value_witness :
    (SetupPanel.run
        [SetupPanel.Event.poll (.success { max_dac_value := 2, dac_bits := 3 }),
         SetupPanel.Event.submit (.failure none)]
        (SetupPanel.loadStatus (.success { max_dac_value := 5, dac_bits := 3 })
          SetupPanel.data)).current_max_dac_value = 5 :=
  (poll_compares_against_load_time_value
    [SetupPanel.Event.poll (.success { max_dac_value := 2, dac_bits := 3 }),
     SetupPanel.Event.submit (.failure none)]
    { max_dac_value := 5, dac_bits := 3 } SetupPanel.data (by decide)).2.1
